import Mathlib

set_option maxRecDepth 4096

/-!
# Verification of the parsip lookup-table generator

Shallow embedding of `src/scripts/lookup_table_generator.py`.

The Python script defines a family of byte classifiers (pure predicates on
byte values) for SIP grammar productions, and a table emitter
`generate_lookup_table` that prints, for a classifier, a fixed-width array
of 0/1 entries.  We model:

* each classifier as a `Nat → Bool` function, translated line by line from
  the Python source (byte-string membership becomes membership in the list
  of the literal's byte values);
* "checked" variants over `Int` that make the `ValueError` raised by
  Python's `int in bytes` test explicit, for the totality claim;
* the emitter as a pure function producing the printed character stream
  (`List Char`), chunk for chunk mirroring each `print(..., end='')` call;
* `main` as a function from the argument list to the pair of the output
  flushed before any failure and a success flag (a `KeyError` on an
  unknown name aborts the loop, output printed earlier is already out).
-/

/-! ## Classifier Set, from the Python source -/

/-- Byte values of the Python bytes literal of the ten extra token
characters (exclamation mark, percent, apostrophe, asterisk, plus,
hyphen, dot, underscore, backquote, tilde), in the order they appear in
the source. -/
def tokenChars : List Nat :=
  [0x21, 0x25, 0x27, 0x2A, 0x2B, 0x2D, 0x2E, 0x5F, 0x60, 0x7E]

/-- Byte values of the Python bytes literal of the twenty extra
request-URI characters (exclamation mark, dollar, percent, ampersand,
apostrophe, both parentheses, asterisk, plus, comma, hyphen, dot, slash,
colon, semicolon, equals, question mark, at sign, underscore, tilde). -/
def uriChars : List Nat :=
  [0x21, 0x24, 0x25, 0x26, 0x27, 0x28, 0x29, 0x2A, 0x2B, 0x2C, 0x2D,
   0x2E, 0x2F, 0x3A, 0x3B, 0x3D, 0x3F, 0x40, 0x5F, 0x7E]

/-- `is_alphanum` from the source: ASCII lowercase, uppercase or digit. -/
def is_alphanum (b : Nat) : Bool :=
  (0x61 ≤ b && b ≤ 0x7A) || (0x41 ≤ b && b ≤ 0x5A) || (0x30 ≤ b && b ≤ 0x39)

/-- `is_token` from the source. -/
def is_token (b : Nat) : Bool :=
  is_alphanum b || tokenChars.contains b

/-- `is_request_uri` from the source. -/
def is_request_uri (b : Nat) : Bool :=
  is_alphanum b || uriChars.contains b

/-- `is_reason_phrase` from the source: alphanumeric, the request-URI
extra characters, the byte 0xFF, or space / horizontal tab. -/
def is_reason_phrase (b : Nat) : Bool :=
  is_alphanum b || uriChars.contains b ||
    ([0xFF] : List Nat).contains b || ([0x20, 0x09] : List Nat).contains b

/-- `is_UTF8_NONASCII` from the source: the five lead-byte ranges. -/
def is_UTF8_NONASCII (b : Nat) : Bool :=
  (0xC0 ≤ b && b ≤ 0xDF) || (0xE0 ≤ b && b ≤ 0xEF) ||
  (0xF0 ≤ b && b ≤ 0xF7) || (0xF8 ≤ b && b ≤ 0xFB) ||
  (0xFC ≤ b && b ≤ 0xFD)

/-- `is_UTF8_CONT` from the source. -/
def is_UTF8_CONT (b : Nat) : Bool :=
  0x80 ≤ b && b ≤ 0xBF

/-- `is_TEXT_UTF8char` from the source. -/
def is_TEXT_UTF8char (b : Nat) : Bool :=
  (0x21 ≤ b && b ≤ 0x7E) || is_UTF8_NONASCII b

/-- `is_LWS` from the source: space, horizontal tab, CR, LF. -/
def is_LWS (b : Nat) : Bool :=
  ([0x20, 0x09, 0x0D, 0x0A] : List Nat).contains b

/-- `is_header_value` from the source; the last disjunct is the
membership test in the bytes literal holding NUL, BEL, DEL. -/
def is_header_value (b : Nat) : Bool :=
  is_TEXT_UTF8char b || is_UTF8_CONT b || is_LWS b ||
    ([0x00, 0x07, 0x7F] : List Nat).contains b

/-! ## Checked classifiers over `Int`

In Python, `b in some_bytes` for an `int` b raises `ValueError` when b is
outside [0, 255]; the pure range comparisons never raise.  The checked
variants make this explicit, following the short-circuit order of the
source's `or` chains. -/

/-- Python's `b in bs` membership test on a bytes object: raises
`ValueError` when the integer is not a byte value. -/
def byteIn (bs : List Nat) (b : Int) : Except String Bool :=
  if 0 ≤ b ∧ b ≤ 255 then .ok (bs.contains b.toNat)
  else .error "ValueError: byte must be in range(0, 256)"

/-- `is_alphanum` evaluated on a raw Python int: chained comparisons
never raise. -/
def is_alphanum_int (b : Int) : Bool :=
  (0x61 ≤ b && b ≤ 0x7A) || (0x41 ≤ b && b ≤ 0x5A) || (0x30 ≤ b && b ≤ 0x39)

/-- `is_token` with Python's error behaviour made explicit. -/
def is_token_checked (b : Int) : Except String Bool :=
  if is_alphanum_int b then .ok true else byteIn tokenChars b

/-- `is_request_uri` with Python's error behaviour made explicit. -/
def is_request_uri_checked (b : Int) : Except String Bool :=
  if is_alphanum_int b then .ok true else byteIn uriChars b

/-- `is_reason_phrase` with Python's error behaviour made explicit:
the three bytes-membership tests run left to right, each may raise. -/
def is_reason_phrase_checked (b : Int) : Except String Bool := do
  if is_alphanum_int b then return true
  let r1 ← byteIn uriChars b
  if r1 then return true
  let r2 ← byteIn [0xFF] b
  if r2 then return true
  byteIn [0x20, 0x09] b

/-- `is_TEXT_UTF8char` on a raw Python int (pure comparisons only). -/
def is_TEXT_UTF8char_int (b : Int) : Bool :=
  (0x21 ≤ b && b ≤ 0x7E) ||
  ((0xC0 ≤ b && b ≤ 0xDF) || (0xE0 ≤ b && b ≤ 0xEF) ||
   (0xF0 ≤ b && b ≤ 0xF7) || (0xF8 ≤ b && b ≤ 0xFB) ||
   (0xFC ≤ b && b ≤ 0xFD))

/-- `is_UTF8_CONT` on a raw Python int. -/
def is_UTF8_CONT_int (b : Int) : Bool :=
  0x80 ≤ b && b ≤ 0xBF

/-- `is_header_value` with Python's error behaviour made explicit: the
`is_LWS` helper and the final NUL/BEL/DEL test are bytes-membership
tests and may raise. -/
def is_header_value_checked (b : Int) : Except String Bool := do
  if is_TEXT_UTF8char_int b then return true
  if is_UTF8_CONT_int b then return true
  let r ← byteIn [0x20, 0x09, 0x0D, 0x0A] b
  if r then return true
  byteIn [0x00, 0x07, 0x7F] b

/-! ## Spec-side byte classes

These definitions follow the words of the specification (section 8 of
the design document), to be compared against the classifiers translated
from the source. -/

/-- Spec-side description of the HEADER_VALUE_MAP one-set: the explicit
tolerated/whitespace bytes, printable ASCII 0x21-0x7E, and 0x80-0xFD. -/
def headerValueSpec (b : Nat) : Bool :=
  ([0x00, 0x07, 0x09, 0x0A, 0x0D, 0x20, 0x7F] : List Nat).contains b ||
  (0x21 ≤ b && b ≤ 0x7E) || (0x80 ≤ b && b ≤ 0xFD)

/-- Spec-side description of the HEADER_VALUE_MAP zero-set: 0x01-0x06,
0x08, 0x0B, 0x0C, 0x0E-0x1F, 0xFE, 0xFF. -/
def headerValueZeroSpec (b : Nat) : Bool :=
  (0x01 ≤ b && b ≤ 0x06) || b == 0x08 || b == 0x0B || b == 0x0C ||
  (0x0E ≤ b && b ≤ 0x1F) || b == 0xFE || b == 0xFF

/-- Spec-side description of the TOKEN_MAP one-set: ASCII letter, digit,
or one of the ten listed punctuation characters. -/
def tokenSpec (b : Nat) : Bool :=
  (0x61 ≤ b && b ≤ 0x7A) || (0x41 ≤ b && b ≤ 0x5A) ||
  (0x30 ≤ b && b ≤ 0x39) ||
  ([0x21, 0x25, 0x27, 0x2A, 0x2B, 0x2D, 0x2E, 0x5F, 0x60, 0x7E] :
    List Nat).contains b

/-- Spec-side description of the REASON_PHRASE_MAP one-set:
alphanumeric, the twenty listed punctuation characters, 0xFF, space or
horizontal tab. -/
def reasonPhraseSpec (b : Nat) : Bool :=
  (0x61 ≤ b && b ≤ 0x7A) || (0x41 ≤ b && b ≤ 0x5A) ||
  (0x30 ≤ b && b ≤ 0x39) ||
  ([0x21, 0x24, 0x25, 0x26, 0x27, 0x28, 0x29, 0x2A, 0x2B, 0x2C, 0x2D,
    0x2E, 0x2F, 0x3A, 0x3B, 0x3D, 0x3F, 0x40, 0x5F, 0x7E] :
    List Nat).contains b ||
  b == 0xFF || b == 0x20 || b == 0x09

/-! ## Claims about the byte classifiers -/

/-- C1: over the byte domain, `is_header_value` (the HEADER_VALUE_MAP
classifier) returns 1 exactly on the spec's one-set — the tolerated
bytes 0x00, 0x07, 0x09, 0x0A, 0x0D, 0x20, 0x7F, the printable range
0x21-0x7E, and 0x80-0xFD — and the spec's zero-set (0x01-0x06, 0x08,
0x0B, 0x0C, 0x0E-0x1F, 0xFE, 0xFF) is exactly its complement. -/
theorem header_value_map_matches_spec :
    ∀ b : Fin 256, is_header_value b.val = headerValueSpec b.val ∧
      headerValueZeroSpec b.val = !(is_header_value b.val) := by
  decide

/-- C2: over the byte domain, `is_token` (the TOKEN_MAP classifier)
returns 1 exactly on ASCII letters, digits, and the ten listed
punctuation characters; in particular the emitted TOKEN_MAP entry is '1'
at index 65 (capital A), '0' at index 32 (space), '1' at index 45
(hyphen). -/
theorem token_map_matches_spec :
    (∀ b : Fin 256, is_token b.val = tokenSpec b.val) ∧
      is_token 65 = true ∧ is_token 32 = false ∧ is_token 45 = true := by
  decide

/-- C3: over the byte domain, `is_reason_phrase` (the REASON_PHRASE_MAP
classifier) returns 1 exactly on alphanumerics, the twenty listed
punctuation characters, byte 0xFF, space and horizontal tab; in
particular it is 1 at 0xFF and 0x09 and 0 at 0x00. -/
theorem reason_phrase_map_matches_spec :
    (∀ b : Fin 256, is_reason_phrase b.val = reasonPhraseSpec b.val) ∧
      is_reason_phrase 0xFF = true ∧ is_reason_phrase 0x09 = true ∧
      is_reason_phrase 0x00 = false := by
  decide

/-- C10: for CR (0x0D) and LF (0x0A), the classifiers `is_token`,
`is_request_uri` and `is_reason_phrase` return false while
`is_header_value` returns true: of the four emitted maps only
HEADER_VALUE_MAP admits CR and LF. -/
theorem only_header_value_admits_cr_lf :
    is_token 0x0D = false ∧ is_request_uri 0x0D = false ∧
    is_reason_phrase 0x0D = false ∧ is_header_value 0x0D = true ∧
    is_token 0x0A = false ∧ is_request_uri 0x0A = false ∧
    is_reason_phrase 0x0A = false ∧ is_header_value 0x0A = true := by
  decide

/-! ## Table Emitter, from the Python source

`generate_lookup_table` prints a character stream; we model the stream
as a `List Char` built exactly as the sequence of `print(..., end='')`
calls builds it.  The domain size parameter is an `Int` (Python's `n`
after the `isinstance(n, int)` assertion); `range(n)` is empty for
non-positive `n`, which `Int.toNat` captures. -/

/-- The character printed for one classification result: '1' or '0'. -/
def bitChar (b : Bool) : Char := if b then '1' else '0'

/-- What the entry print emits for index `i`: a space, the 0/1 digit,
and a comma. -/
def entryChars (func : Nat → Bool) (i : Nat) : List Char :=
  [' ', bitChar (func i), ',']

/-- What one loop iteration prints for index `i`: a newline and three
spaces when `i` is a multiple of the row width, then the entry. -/
def chunk (func : Nat → Bool) (align i : Nat) : List Char :=
  (if i % align = 0 then ['\n', ' ', ' ', ' '] else []) ++ entryChars func i

/-- Everything the loop prints: the chunks for indices 0..n-1. -/
def tableBody (func : Nat → Bool) (n align : Nat) : List Char :=
  (List.range n).flatMap (chunk func align)

/-- The first line printed: the array declaration header. -/
def firstLine (name : String) (n : Int) : List Char :=
  ("static " ++ name ++ ": [bool; " ++ toString n ++ "] = byte_map![").toList

/-- The closing bracket line. -/
def lastLine : List Char := "];".toList

/-- `generate_lookup_table` from the source: the full stream printed for
one table, the trailing newline of the final `print` included. -/
def generate_lookup_table (name : String) (func : Nat → Bool)
    (n : Int) (align : Nat) : List Char :=
  firstLine name n ++ tableBody func n.toNat align ++
    ('\n' :: lastLine) ++ ['\n', '\n']

/-- A Python value passed as the domain size: an `int`, or a value of
any other type (for which `isinstance(n, int)` is false). -/
inductive PySize where
  | int : Int → PySize
  | nonIntegral : PySize

/-- `generate_lookup_table` with its leading `assert isinstance(n, int)`
made explicit: a non-`int` size raises `AssertionError` before anything
is printed. -/
def generate_lookup_table_checked (name : String) (func : Nat → Bool)
    (n : PySize) (align : Nat) : Except String (List Char) :=
  match n with
  | .nonIntegral => .error "AssertionError"
  | .int i => .ok (generate_lookup_table name func i align)

/-- The `GENERATORS` mapping from the source, in source order. -/
def GENERATORS : List (String × (Nat → Bool)) :=
  [("TOKEN_MAP", is_token),
   ("REQUEST_URI_MAP", is_request_uri),
   ("REASON_PHRASE_MAP", is_reason_phrase),
   ("HEADER_VALUE_MAP", is_header_value)]

/-- `GENERATORS[arg]`: `none` models the `KeyError` on an unknown name. -/
def lookupGen (name : String) : Option (Nat → Bool) :=
  GENERATORS.lookup name

/-- `main` from the source: process the arguments left to right; each
known name's table is printed (with the default size 256 and row width
16) before the next name is looked up; an unknown name raises `KeyError`
and stops the loop, the output printed so far already flushed.  Returns
the flushed output and a success flag. -/
def mainRun : List String → List Char × Bool
  | [] => ([], true)
  | arg :: rest =>
    match lookupGen arg with
    | none => ([], false)
    | some f =>
      let out := generate_lookup_table arg f 256 16
      let r := mainRun rest
      (out ++ r.1, r.2)

/-- The concatenation of the tables emitted for a list of names, each
known name contributing its table (used to describe `mainRun`'s partial
output). -/
def emittedTables (names : List String) : List Char :=
  (names.map (fun p =>
    match lookupGen p with
    | some f => generate_lookup_table p f 256 16
    | none => [])).flatten

/-- The 0/1 entry characters of a printed stream, in print order. -/
def entriesOf (l : List Char) : List Char :=
  l.filter (fun c => c == '0' || c == '1')

/-- Everything the loop prints after the leading newline of a row that
starts at index 0 of `List.range m`: three spaces then `m` entries. -/
def rowTail (func : Nat → Bool) (m : Nat) : List Char :=
  [' ', ' ', ' '] ++ (List.range m).flatMap (entryChars func)

/-- Split a character stream at newline characters (the newline-free
segments, in order; a segment before the first newline and after the
last one always included, so a stream with k newlines yields k+1
segments). -/
def splitLines : List Char → List (List Char)
  | [] => [[]]
  | c :: cs =>
    if c = '\n' then [] :: splitLines cs
    else
      match splitLines cs with
      | [] => [[c]]
      | l :: ls => (c :: l) :: ls

/-- The rows of a printed table body: the newline-separated segments,
the empty segment before the body's leading newline dropped. -/
def tableRows (func : Nat → Bool) (n align : Nat) : List (List Char) :=
  (splitLines (tableBody func n align)).drop 1

/-! ## Structure of the emitted stream -/

lemma entriesOf_append (l₁ l₂ : List Char) :
    entriesOf (l₁ ++ l₂) = entriesOf l₁ ++ entriesOf l₂ :=
  List.filter_append l₁ l₂

lemma entriesOf_chunk (f : Nat → Bool) (a i : Nat) :
    entriesOf (chunk f a i) = [bitChar (f i)] := by
  cases h : f i <;> by_cases hm : i % a = 0 <;>
    simp [chunk, entryChars, entriesOf, bitChar, h, hm]

lemma tableBody_succ (f : Nat → Bool) (a n : Nat) :
    tableBody f (n + 1) a = tableBody f n a ++ chunk f a n := by
  simp [tableBody, List.range_succ]

lemma entriesOf_tableBody (f : Nat → Bool) (n a : Nat) :
    entriesOf (tableBody f n a) =
      (List.range n).map (fun i => bitChar (f i)) := by
  induction n with
  | zero => rfl
  | succ k ih =>
    rw [tableBody_succ, entriesOf_append, ih, entriesOf_chunk,
      List.range_succ, List.map_append]
    rfl

lemma entriesOf_entryChars_flatMap (f : Nat → Bool) (m : Nat) :
    entriesOf ((List.range m).flatMap (entryChars f)) =
      (List.range m).map (fun i => bitChar (f i)) := by
  induction m with
  | zero => rfl
  | succ k ih =>
    rw [List.range_succ, List.flatMap_append, entriesOf_append, ih,
      List.map_append]
    cases h : f k <;> simp [entryChars, entriesOf, bitChar, h]

lemma entriesOf_rowTail (f : Nat → Bool) (m : Nat) :
    entriesOf (rowTail f m) = (List.range m).map (fun i => bitChar (f i)) := by
  rw [rowTail, entriesOf_append, entriesOf_entryChars_flatMap]
  rfl

lemma length_entriesOf_rowTail (f : Nat → Bool) (m : Nat) :
    (entriesOf (rowTail f m)).length = m := by
  rw [entriesOf_rowTail, List.length_map, List.length_range]

lemma newline_not_mem_entryChars (f : Nat → Bool) (i : Nat) :
    ('\n' : Char) ∉ entryChars f i := by
  cases h : f i <;> simp [entryChars, bitChar, h]

lemma newline_not_mem_rowTail (f : Nat → Bool) (m : Nat) :
    ('\n' : Char) ∉ rowTail f m := by
  intro hmem
  rw [rowTail, List.mem_append] at hmem
  rcases hmem with hmem | hmem
  · revert hmem; decide
  · rw [List.mem_flatMap] at hmem
    obtain ⟨i, -, hi⟩ := hmem
    exact newline_not_mem_entryChars f i hi

lemma splitLines_ne_nil (l : List Char) : splitLines l ≠ [] := by
  cases l with
  | nil => simp [splitLines]
  | cons c cs =>
    by_cases h : c = '\n'
    · simp [splitLines, h]
    · cases hs : splitLines cs with
      | nil => simp [splitLines, h, hs]
      | cons a as => simp [splitLines, h, hs]

lemma splitLines_cons_newline (cs : List Char) :
    splitLines ('\n' :: cs) = [] :: splitLines cs := by
  simp [splitLines]

lemma splitLines_append_no_newline (xs ys : List Char)
    (h : ('\n' : Char) ∉ xs) :
    splitLines (xs ++ ys) =
      (xs ++ (splitLines ys).headD []) :: (splitLines ys).tail := by
  induction xs with
  | nil =>
    cases hs : splitLines ys with
    | nil => exact absurd hs (splitLines_ne_nil ys)
    | cons a as => simp [hs]
  | cons c cs ih =>
    have hc : c ≠ '\n' := fun hc => h (by simp [hc])
    have h' : ('\n' : Char) ∉ cs := fun hm => h (List.mem_cons_of_mem _ hm)
    rw [List.cons_append]
    simp only [splitLines, if_neg hc, ih h']
    simp

lemma splitLines_no_newline (xs : List Char) (h : ('\n' : Char) ∉ xs) :
    splitLines xs = [xs] := by
  have := splitLines_append_no_newline xs [] h
  simpa [splitLines] using this

lemma range_flatMap_chunk (f : Nat → Bool) (align : Nat) :
    ∀ m, 0 < m → m ≤ align →
      (List.range m).flatMap (chunk f align) = '\n' :: rowTail f m := by
  intro m
  induction m with
  | zero => intro h; exact absurd h (by omega)
  | succ k ih =>
    intro _ hle
    by_cases hk : k = 0
    · subst hk
      simp [List.range_succ, chunk, entryChars, rowTail, Nat.zero_mod]
    · have hk0 : 0 < k := Nat.pos_of_ne_zero hk
      have hkla : k ≤ align := Nat.le_of_succ_le hle
      have hmod : ¬ k % align = 0 := by
        rw [Nat.mod_eq_of_lt (Nat.lt_of_lt_of_le (Nat.lt_succ_self k) hle)]
        exact hk
      rw [List.range_succ, List.flatMap_append, ih hk0 hkla]
      simp [chunk, hmod, rowTail, List.range_succ]

lemma tableBody_small (f : Nat → Bool) (n align : Nat)
    (hn : 0 < n) (hle : n ≤ align) :
    tableBody f n align = '\n' :: rowTail f n :=
  range_flatMap_chunk f align n hn hle

lemma tableBody_step (f : Nat → Bool) (n align : Nat)
    (ha : 0 < align) (hlt : align < n) :
    tableBody f n align =
      ('\n' :: rowTail f align) ++
        tableBody (fun j => f (align + j)) (n - align) align := by
  have hsplit : n = align + (n - align) := by omega
  rw [tableBody, hsplit, List.range_add, List.flatMap_append,
    range_flatMap_chunk f align align ha le_rfl]
  congr 1
  rw [List.flatMap_map, tableBody]
  have hch : ∀ a, chunk f align (align + a) =
      chunk (fun j => f (align + j)) align a := by
    intro a
    simp [chunk, entryChars, Nat.add_mod_left]
  simp only [Nat.add_sub_cancel_left, hch]

lemma tableBody_head (f : Nat → Bool) (n align : Nat)
    (ha : 0 < align) (hn : 0 < n) :
    ∃ t, tableBody f n align = '\n' :: t := by
  rcases le_or_lt n align with hle | hlt
  · exact ⟨rowTail f n, tableBody_small f n align hn hle⟩
  · exact ⟨_, tableBody_step f n align ha hlt⟩

lemma splitLines_tableBody (f : Nat → Bool) (n align : Nat)
    (ha : 0 < align) (hn : 0 < n) :
    splitLines (tableBody f n align) = [] :: tableRows f n align := by
  obtain ⟨t, ht⟩ := tableBody_head f n align ha hn
  rw [tableRows, ht, splitLines_cons_newline]
  rfl

lemma tableRows_small (f : Nat → Bool) (n align : Nat)
    (hn : 0 < n) (hle : n ≤ align) :
    tableRows f n align = [rowTail f n] := by
  rw [tableRows, tableBody_small f n align hn hle, splitLines_cons_newline,
    splitLines_no_newline _ (newline_not_mem_rowTail f n)]
  rfl

lemma tableRows_step (f : Nat → Bool) (n align : Nat)
    (ha : 0 < align) (hlt : align < n) :
    tableRows f n align =
      rowTail f align ::
        tableRows (fun j => f (align + j)) (n - align) align := by
  have hrest : 0 < n - align := by omega
  rw [tableRows, tableBody_step f n align ha hlt, List.cons_append,
    splitLines_cons_newline,
    splitLines_append_no_newline _ _ (newline_not_mem_rowTail f align),
    splitLines_tableBody _ _ _ ha hrest]
  simp

lemma tableRows_facts (W : Nat) (hW : 0 < W) :
    ∀ n, ∀ f : Nat → Bool, 0 < n →
      (tableRows f n W).length = (n + W - 1) / W ∧
      (∀ r ∈ (tableRows f n W).dropLast, (entriesOf r).length = W) ∧
      (∀ r, (tableRows f n W).getLast? = some r →
        (entriesOf r).length = if n % W = 0 then W else n % W) := by
  intro n
  induction n using Nat.strong_induction_on with
  | _ n ih =>
    intro f hn
    rcases le_or_lt n W with hle | hlt
    · rw [tableRows_small f n W hn hle]
      refine ⟨?_, ?_, ?_⟩
      · show 1 = (n + W - 1) / W
        symm
        apply Nat.div_eq_of_lt_le <;> omega
      · intro r hr
        simp at hr
      · intro r hr
        rw [List.getLast?_singleton, Option.some_inj] at hr
        subst hr
        rw [length_entriesOf_rowTail]
        rcases Nat.lt_or_ge n W with hlt' | hge
        · rw [if_neg (by rw [Nat.mod_eq_of_lt hlt']; omega),
            Nat.mod_eq_of_lt hlt']
        · have : n = W := by omega
          subst this
          rw [if_pos (Nat.mod_self n)]
    · have hrest : 0 < n - W := by omega
      obtain ⟨hlen, hdrop, hlast⟩ := ih (n - W) (by omega) (fun j => f (W + j)) hrest
      have hmod : n % W = (n - W) % W := by
        conv_lhs => rw [show n = (n - W) + W by omega]
        rw [Nat.add_mod_right]
      have hne : tableRows (fun j => f (W + j)) (n - W) W ≠ [] := by
        intro h0
        rw [h0] at hlen
        have h1 : 1 ≤ (n - W + W - 1) / W :=
          (Nat.one_le_div_iff hW).mpr (by omega)
        simp at hlen
        omega
      rw [tableRows_step f n W hW hlt]
      refine ⟨?_, ?_, ?_⟩
      · rw [List.length_cons, hlen,
          show n + W - 1 = (n - W + W - 1) + W by omega,
          Nat.add_div_right _ hW]
      · intro r hr
        rw [List.dropLast_cons_of_ne_nil hne] at hr
        rcases List.mem_cons.mp hr with hr | hr
        · subst hr
          exact length_entriesOf_rowTail f W
        · exact hdrop r hr
      · intro r hr
        rw [hmod]
        apply hlast
        rw [← hr]
        cases hrows : tableRows (fun j => f (W + j)) (n - W) W with
        | nil => exact absurd hrows hne
        | cons b l => rw [List.getLast?_cons_cons]

/-! ## Claims about the Table Emitter and main -/

/-- C6: for a registered classifier `f` and positive domain size `n`,
the emitted table has exactly `n` entry characters, and read in row
order they are the classifier's results on 0..n-1 rendered as '1' for
true and '0' for false — the indices covered in increasing order with
no gaps or duplicates. -/
theorem generated_table_complete (name : String) (f : Nat → Bool)
    (n align : Nat) (_hreg : lookupGen name = some f)
    (_hn : 0 < n) (_halign : 0 < align) :
    (entriesOf (tableBody f n align)).length = n ∧
    entriesOf (tableBody f n align) =
      (List.range n).map (fun i => bitChar (f i)) := by
  refine ⟨?_, entriesOf_tableBody f n align⟩
  rw [entriesOf_tableBody, List.length_map, List.length_range]

theorem generated_table_complete_witness :
    (entriesOf (tableBody is_token 256 16)).length = 256 ∧
    entriesOf (tableBody is_token 256 16) =
      (List.range 256).map (fun i => bitChar (is_token i)) :=
  generated_table_complete "TOKEN_MAP" is_token 256 16 rfl
    (by decide) (by decide)

/-- C7: for positive row width `W` and positive entry count `N`, the
emitted body groups its entries into exactly `ceil(N / W)` rows (written
`(N + W - 1) / W`); every row except possibly the last holds exactly `W`
entries, and the last holds `N mod W` entries when `W` does not divide
`N` (otherwise `W`). -/
theorem table_row_grouping (f : Nat → Bool) (N W : Nat)
    (hW : 0 < W) (hN : 0 < N) :
    (tableRows f N W).length = (N + W - 1) / W ∧
    (∀ r ∈ (tableRows f N W).dropLast, (entriesOf r).length = W) ∧
    (∀ r, (tableRows f N W).getLast? = some r →
      (entriesOf r).length = if N % W = 0 then W else N % W) :=
  tableRows_facts W hW N f hN

theorem table_row_grouping_witness :
    (tableRows is_token 5 2).length = (5 + 2 - 1) / 2 ∧
    (∀ r ∈ (tableRows is_token 5 2).dropLast, (entriesOf r).length = 2) ∧
    (∀ r, (tableRows is_token 5 2).getLast? = some r →
      (entriesOf r).length = if 5 % 2 = 0 then 2 else 5 % 2) :=
  table_row_grouping is_token 5 2 (by decide) (by decide)

/-- C4 counterexample: requesting `["TOKEN_MAP", "BOGUS_MAP"]` fails
(the unknown name raises), yet the output flushed before the failure is
not empty — the TOKEN_MAP table preceding the unknown name was emitted,
contradicting "no table output is emitted for any name of the request,
including names that precede the unknown one". -/
theorem main_unknown_name_partial_output :
    (mainRun ["TOKEN_MAP", "BOGUS_MAP"]).2 = false ∧
    (mainRun ["TOKEN_MAP", "BOGUS_MAP"]).1 ≠ [] := by
  decide

/-- C4 as amended: argument processing is sequential, so when the
request contains an unknown name, the request fails and nothing is
emitted for the unknown name or the names after it, but the tables of
the known names preceding the first unknown name have already been
emitted. -/
theorem main_emits_prefix_before_unknown (pre : List String)
    (arg : String) (rest : List String)
    (hpre : ∀ p ∈ pre, (lookupGen p).isSome)
    (harg : lookupGen arg = none) :
    mainRun (pre ++ arg :: rest) = (emittedTables pre, false) := by
  induction pre with
  | nil => simp [mainRun, harg, emittedTables]
  | cons p ps ih =>
    have hp : (lookupGen p).isSome := hpre p (List.mem_cons_self p ps)
    obtain ⟨f, hf⟩ := Option.isSome_iff_exists.mp hp
    have hps : ∀ q ∈ ps, (lookupGen q).isSome :=
      fun q hq => hpre q (List.mem_cons_of_mem _ hq)
    simp [mainRun, hf, ih hps, emittedTables]

theorem main_emits_prefix_before_unknown_witness :
    mainRun (["TOKEN_MAP"] ++ "BOGUS_MAP" :: []) =
      (emittedTables ["TOKEN_MAP"], false) :=
  main_emits_prefix_before_unknown ["TOKEN_MAP"] "BOGUS_MAP" []
    (by decide) rfl

/-- C5 counterexample: for the integral domain size 0 the generator does
not reject the request — it returns the emitted artifact, and that
artifact is not empty (the header and closing lines of an empty table
are written), contradicting "no table (not even an empty one) is written
for such N". -/
theorem size_zero_emits_artifact :
    generate_lookup_table_checked "TOKEN_MAP" is_token (.int 0) 16 =
      .ok (generate_lookup_table "TOKEN_MAP" is_token 0 16) ∧
    generate_lookup_table "TOKEN_MAP" is_token 0 16 ≠ [] :=
  ⟨rfl, by decide⟩

/-- C5 as amended: a non-integral domain size is rejected by the
assertion before anything is printed, but an integral size `N ≤ 0` is
accepted: the classification loop runs zero times and the generator
emits an artifact consisting of the header line and the closing lines,
with zero entries. -/
theorem size_check_behavior (name : String) (f : Nat → Bool)
    (align : Nat) (i : Int) (hi : i ≤ 0) :
    generate_lookup_table_checked name f PySize.nonIntegral align =
      .error "AssertionError" ∧
    generate_lookup_table_checked name f (.int i) align =
      .ok (firstLine name i ++ '\n' :: lastLine ++ ['\n', '\n']) := by
  refine ⟨rfl, ?_⟩
  have h0 : i.toNat = 0 := by omega
  simp [generate_lookup_table_checked, generate_lookup_table, h0, tableBody]

theorem size_check_behavior_witness :
    generate_lookup_table_checked "TOKEN_MAP" is_token
        PySize.nonIntegral 16 = .error "AssertionError" ∧
    generate_lookup_table_checked "TOKEN_MAP" is_token (.int 0) 16 =
      .ok (firstLine "TOKEN_MAP" 0 ++ '\n' :: lastLine ++ ['\n', '\n']) :=
  size_check_behavior "TOKEN_MAP" is_token 16 0 (by decide)

instance : DecidableEq (Except String Bool) := fun a b =>
  match a, b with
  | .error e, .error e' =>
    if h : e = e' then isTrue (by rw [h])
    else isFalse (by intro hc; cases hc; exact h rfl)
  | .ok x, .ok y =>
    if h : x = y then isTrue (by rw [h])
    else isFalse (by intro hc; cases hc; exact h rfl)
  | .error _, .ok _ => isFalse (by intro hc; cases hc)
  | .ok _, .error _ => isFalse (by intro hc; cases hc)

lemma checked_classifiers_agree :
    ∀ b : Fin 256,
      is_token_checked (b.val : Int) = .ok (is_token b.val) ∧
      is_request_uri_checked (b.val : Int) = .ok (is_request_uri b.val) ∧
      is_reason_phrase_checked (b.val : Int) =
        .ok (is_reason_phrase b.val) ∧
      is_header_value_checked (b.val : Int) =
        .ok (is_header_value b.val) := by
  decide

/-- C8: each registered classifier is total on the byte domain: for
every `b` in [0, 255] the checked evaluation (Python error behaviour
made explicit) returns `ok` with the classifier's boolean — the
precondition makes every error branch unreachable. -/
theorem classifiers_total (b : Int) (h0 : 0 ≤ b) (h255 : b ≤ 255) :
    is_token_checked b = .ok (is_token b.toNat) ∧
    is_request_uri_checked b = .ok (is_request_uri b.toNat) ∧
    is_reason_phrase_checked b = .ok (is_reason_phrase b.toNat) ∧
    is_header_value_checked b = .ok (is_header_value b.toNat) := by
  have hlt : b.toNat < 256 := by omega
  have hb : ((b.toNat : Nat) : Int) = b := Int.toNat_of_nonneg h0
  have h' : is_token_checked (b.toNat : Int) = .ok (is_token b.toNat) ∧
      is_request_uri_checked (b.toNat : Int) =
        .ok (is_request_uri b.toNat) ∧
      is_reason_phrase_checked (b.toNat : Int) =
        .ok (is_reason_phrase b.toNat) ∧
      is_header_value_checked (b.toNat : Int) =
        .ok (is_header_value b.toNat) :=
    checked_classifiers_agree ⟨b.toNat, hlt⟩
  rwa [hb] at h'

theorem classifiers_total_witness :
    is_token_checked 65 = .ok (is_token (Int.toNat 65)) ∧
    is_request_uri_checked 65 = .ok (is_request_uri (Int.toNat 65)) ∧
    is_reason_phrase_checked 65 = .ok (is_reason_phrase (Int.toNat 65)) ∧
    is_header_value_checked 65 = .ok (is_header_value (Int.toNat 65)) :=
  classifiers_total 65 (by decide) (by decide)

/-- C9: table generation is deterministic — the emitted stream is a
function of the classifier name, the classifier, the domain size and the
row width alone, so two invocations with equal inputs produce identical
output (the embedding has no other state the output could depend on). -/
theorem generation_deterministic (name₁ name₂ : String)
    (f₁ f₂ : Nat → Bool) (n₁ n₂ : Int) (w₁ w₂ : Nat)
    (hname : name₁ = name₂) (hf : ∀ b, f₁ b = f₂ b)
    (hn : n₁ = n₂) (hw : w₁ = w₂) :
    generate_lookup_table name₁ f₁ n₁ w₁ =
      generate_lookup_table name₂ f₂ n₂ w₂ := by
  have hfun : f₁ = f₂ := funext hf
  rw [hname, hfun, hn, hw]

theorem generation_deterministic_witness :
    generate_lookup_table "TOKEN_MAP" is_token 256 16 =
      generate_lookup_table "TOKEN_MAP" is_token 256 16 :=
  generation_deterministic "TOKEN_MAP" "TOKEN_MAP" is_token is_token
    256 256 16 16 rfl (fun _ => rfl) rfl rfl
